import Mathlib

/- Shallow embedding of the nio-blocks/modbus repository: the TCP block
(modbus_block.py, class Modbus) and the serial block (modbus_rtu_block.py,
class ModbusRTU). Python values flowing through parameter dictionaries and
responses are modelled by the inductive `Value` with Python truthiness; a
Python dict is an association list in insertion order. Expression
evaluation on a signal is modelled by the signal carrying the outcome of
each evaluation (`Option.none` meaning the evaluation raises). A transport
call is modelled by an oracle `ExecEnv` giving the outcome of the first
attempt and of the (post-reconnect) second attempt. -/

/-- A Python value as it appears in call parameters and responses. -/
inductive Value where
  | none
  | bool (b : Bool)
  | int (n : Int)
  | str (s : String)
  | list (vs : List Value)

/-- Python truthiness of a `Value`. -/
def Value.truthy : Value → Bool
  | Value.none => false
  | Value.bool b => b
  | Value.int n => decide (n ≠ 0)
  | Value.str s => decide (s ≠ "")
  | Value.list vs => !vs.isEmpty

/-- A Python keyword-argument dict, in insertion order. -/
abbrev Params := List (String × Value)

/-- Python dict assignment `d[k] = v`: replace in place if the key is
present, else append. -/
def setKey : Params → String → Value → Params
  | [], k, v => [(k, v)]
  | (k0, v0) :: rest, k, v =>
    if k0 = k then (k0, v) :: rest else (k0, v0) :: setKey rest k v

/-- Python dict lookup `d.get(k)`. -/
def getKey : Params → String → Option Value
  | [], _ => Option.none
  | (k0, v0) :: rest, k => if k0 = k then some v0 else getKey rest k

/-- Outcome of one synchronous transport call: a returned response object,
a transport-I/O exception (ModbusIOException for TCP, minimalmodbus I/O
errors for RTU), or any other exception. -/
inductive TransportOutcome where
  | ok (r : Value)
  | ioError
  | otherError

/-- Transport behaviour the device exhibits for one event: the outcome of
the first attempt and the outcome of the (post-reconnect) second attempt,
should one be made. -/
structure ExecEnv where
  first : TransportOutcome
  second : TransportOutcome

/-- Trace of one executor run: how many transport attempts were made, how
many reconnects were performed, and the produced output event, if any. -/
structure ExecTrace (α : Type) where
  attempts : Nat
  reconnects : Nat
  result : Option α

namespace Modbus

/-- modbus_block.py `FunctionName`: the eight Modbus operations. -/
inductive FunctionName where
  | read_coils
  | read_discrete_inputs
  | read_holding_registers
  | read_input_registers
  | write_single_coil
  | write_multiple_coils
  | write_single_holding_register
  | write_multiple_holding_registers
deriving DecidableEq

/-- modbus_block.py `FunctionName` enum string values (the pymodbus3 client
method names). -/
def FunctionName.value : FunctionName → String
  | FunctionName.read_coils => "read_coils"
  | FunctionName.read_discrete_inputs => "read_discrete_inputs"
  | FunctionName.read_holding_registers => "read_holding_registers"
  | FunctionName.read_input_registers => "read_input_registers"
  | FunctionName.write_single_coil => "write_coil"
  | FunctionName.write_multiple_coils => "write_coils"
  | FunctionName.write_single_holding_register => "write_register"
  | FunctionName.write_multiple_holding_registers => "write_registers"

/-- One input signal for the TCP block, abstracted to what the block reads
from it: the outcome of `int(self.address(signal))` (`Option.none` when the
evaluation or the integer coercion raises), the outcome of
`self.value(signal)` (`Option.none` when the expression raises), and the
transport behaviour its call would see. -/
structure Sig where
  addressVal : Option Int
  valueVal : Option Value
  env : ExecEnv

/-- modbus_block.py `Modbus._address`: `int(self.address(signal))` under a
bare try/except that logs a warning and returns None on failure. -/
def _address (s : Sig) : Option Int := s.addressVal

/-- modbus_block.py `Modbus._prepare_params`: a value dict for single
writes, a values dict for multiple writes, an empty dict for reads; a bare
try/except logs a warning and returns None when the value expression
raises. -/
def _prepare_params (modbus_function : String) (s : Sig) : Option Params :=
  if modbus_function = "write_coil" ∨ modbus_function = "write_register" then
    match s.valueVal with
    | some v => some [("value", v)]
    | Option.none => Option.none
  else if modbus_function = "write_coils" ∨ modbus_function = "write_registers" then
    match s.valueVal with
    | some v => some [("values", v)]
    | Option.none => Option.none
  else
    some []

/-- Output signal of the TCP block: `Signal(result.__dict__)` with the used
params attached as `signal.params`. -/
structure OutSignal where
  payload : Value
  params : Params

/-- modbus_block.py `Modbus._execute` called with retry=True (the inner,
second attempt, after the reconnect): a truthy result becomes a signal; a
ModbusIOException is logged and nothing is returned (no further retry); any
other exception is logged and nothing is returned. -/
def executeRetried (env : ExecEnv) (ps : Params) : ExecTrace OutSignal :=
  match env.second with
  | TransportOutcome.ok r =>
    ⟨1, 0, if r.truthy then some ⟨r, ps⟩ else Option.none⟩
  | TransportOutcome.ioError => ⟨1, 0, Option.none⟩
  | TransportOutcome.otherError => ⟨1, 0, Option.none⟩

/-- modbus_block.py `Modbus._execute` (entry, retry=False): a truthy result
becomes a signal; on ModbusIOException it reconnects and re-invokes itself
once with retry=True, NOT returning the inner call's return value (line 85
discards it); any other exception is logged and nothing is returned. -/
def _execute (env : ExecEnv) (ps : Params) : ExecTrace OutSignal :=
  match env.first with
  | TransportOutcome.ok r =>
    ⟨1, 0, if r.truthy then some ⟨r, ps⟩ else Option.none⟩
  | TransportOutcome.ioError =>
    let inner := executeRetried env ps
    ⟨1 + inner.attempts, 1 + inner.reconnects, Option.none⟩
  | TransportOutcome.otherError => ⟨1, 0, Option.none⟩

/-- The dict value stored by `params['address'] = address` (Python None
when address resolution failed). -/
def addrValue : Option Int → Value
  | Option.none => Value.none
  | some a => Value.int a

/-- The loop body of modbus_block.py `Modbus.process_signals` for one
signal, in source order: resolve the address, build the params, assign
`params['address'] = address` (which raises TypeError when params is None —
before the None check on the next line), skip the signal when the address
is None, otherwise execute. Returns the produced output (if any) and the
number of transport attempts, or the uncaught exception. -/
def processOne (fn : FunctionName) (s : Sig) : Except String (Option OutSignal × Nat) :=
  let address := _address s
  match _prepare_params fn.value s with
  | Option.none => Except.error "TypeError"
  | some ps0 =>
    let ps := setKey ps0 "address" (addrValue address)
    match address with
    | Option.none => Except.ok (Option.none, 0)
    | some _ =>
      let tr := _execute s.env ps
      Except.ok (tr.result, tr.attempts)

/-- modbus_block.py `Modbus.process_signals`: process the batch in order,
collecting truthy outputs; the returned list is what `notify_signals`
receives (nothing when empty). An exception raised by the loop body
propagates out, aborting the batch: nothing is notified. -/
def process_signals (fn : FunctionName) : List Sig → Except String (List OutSignal)
  | [] => Except.ok []
  | s :: rest =>
    match processOne fn s with
    | Except.error e => Except.error e
    | Except.ok (o, _) =>
      match process_signals fn rest with
      | Except.error e => Except.error e
      | Except.ok tail =>
        Except.ok (match o with
          | some out => out :: tail
          | Option.none => tail)

/-- Transport attempts made for one signal (0 when the loop body raised
before or instead of calling the transport). -/
def stepAttempts : Except String (Option OutSignal × Nat) → Nat
  | Except.error _ => 0
  | Except.ok (_, k) => k

/-- Output produced for one signal (none when the loop body raised). -/
def stepOutput : Except String (Option OutSignal × Nat) → Option OutSignal
  | Except.error _ => Option.none
  | Except.ok (o, _) => o

end Modbus

namespace ModbusRTU

/-- modbus_rtu_block.py `FunctionName`: the eight Modbus operations with
their numeric function codes as enum values. -/
inductive FunctionName where
  | read_coils
  | read_discrete_inputs
  | read_holding_registers
  | read_input_registers
  | write_single_coil
  | write_multiple_coils
  | write_single_holding_register
  | write_multiple_holding_registers
deriving DecidableEq

/-- modbus_rtu_block.py `FunctionName` numeric enum values (Modbus function
codes). -/
def FunctionName.value : FunctionName → Nat
  | FunctionName.read_coils => 1
  | FunctionName.read_discrete_inputs => 2
  | FunctionName.read_holding_registers => 3
  | FunctionName.read_input_registers => 4
  | FunctionName.write_single_coil => 5
  | FunctionName.write_multiple_coils => 15
  | FunctionName.write_single_holding_register => 6
  | FunctionName.write_multiple_holding_registers => 16

/-- modbus_rtu_block.py `ModbusRTU._function_name_from_code`: the
minimalmodbus instrument method chosen for each function code. -/
def _function_name_from_code (code : Nat) : Option String :=
  if code = 1 then some "read_bit"
  else if code = 2 then some "read_bit"
  else if code = 5 then some "write_bit"
  else if code = 15 then some "write_bit"
  else if code = 3 then some "read_registers"
  else if code = 4 then some "read_registers"
  else if code = 6 then some "write_register"
  else if code = 16 then some "write_registers"
  else Option.none

/-- The RTU block configuration the core logic reads: the selected
function and the statically configured count of coils/registers to read. -/
structure Config where
  function_name : FunctionName
  count : Int

/-- One input signal for the RTU block, abstracted to what the block reads
from it: the outcome of `int(self.address(signal))` (`Option.none` when the
evaluation or the coercion raises), the outcome of `self.value(signal)`
(`Option.none` when the expression raises), and the transport behaviour its
call would see. -/
structure Sig where
  addressVal : Option Int
  valueVal : Option Value
  env : ExecEnv

/-- modbus_rtu_block.py `ModbusRTU._address`: `int(self.address(signal))`
under a bare try/except that logs a warning and returns None on failure. -/
def _address (s : Sig) : Option Int := s.addressVal

/-- modbus_rtu_block.py `ModbusRTU._prepare_params` in source order: always
set `functioncode` and `registeraddress` (the latter is Python None when
address resolution failed — no skip happens); for codes 3 and 4 add
`numberOfRegisters` from the configured count; for codes 5, 6, 15 and 16
evaluate the value expression under `value`, re-raising evaluation failure
as `Exception`. -/
def _prepare_params (cfg : Config) (s : Sig) : Except String Params :=
  let code := cfg.function_name.value
  let ps : Params :=
    setKey (setKey [] "functioncode" (Value.int code))
      "registeraddress" (Modbus.addrValue (_address s))
  if code = 3 ∨ code = 4 then
    Except.ok (setKey ps "numberOfRegisters" (Value.int cfg.count))
  else if code = 5 ∨ code = 6 ∨ code = 15 ∨ code = 16 then
    match s.valueVal with
    | some v => Except.ok (setKey ps "value" v)
    | Option.none => Except.error "Invalid configuration of value property"
  else
    Except.ok ps

/-- Output signal of the RTU block: `Signal` with the raw response under
`values` and the used params under `params`. -/
structure OutSignal where
  values : Value
  params : Params

/-- modbus_rtu_block.py `ModbusRTU._process_response`: a falsy response
yields nothing; otherwise a signal carrying the response and the params. -/
def _process_response (response : Value) (ps : Params) : Option OutSignal :=
  if !response.truthy then Option.none
  else some ⟨response, ps⟩

/-- modbus_rtu_block.py `ModbusRTU._execute`: invoke the transport method
with the params; an exception from the transport propagates (there is no
try/except here); a returned response goes through `_process_response`. -/
def _execute (outcome : TransportOutcome) (ps : Params) : Except String (Option OutSignal) :=
  match outcome with
  | TransportOutcome.ok r => Except.ok (_process_response r ps)
  | TransportOutcome.ioError => Except.error "ModbusIOError"
  | TransportOutcome.otherError => Except.error "Exception"

/-- Modelled from the spec: the nio Retry mixin method `execute_with_retry`
is not part of this repository source (only its caller
`ModbusRTU._process_signal` and the hook `before_retry` are). Per spec
section 4.4: attempt the call; on a transport I/O error, first occurrence,
reconnect (`before_retry`: close then connect) and re-attempt exactly once;
an error during the retried attempt terminates with no output and no
further retries; any other unexpected error terminates immediately with no
retry. -/
def execute_with_retry (env : ExecEnv) (ps : Params) : ExecTrace OutSignal :=
  match _execute env.first ps with
  | Except.ok o => ⟨1, 0, o⟩
  | Except.error e =>
    if e = "ModbusIOError" then
      match _execute env.second ps with
      | Except.ok o => ⟨2, 1, o⟩
      | Except.error _ => ⟨2, 1, Option.none⟩
    else
      ⟨1, 0, Option.none⟩

/-- modbus_rtu_block.py `ModbusRTU._process_signal`: build the params (an
exception propagates to the caller), then run the call through the retry
wrapper. -/
def _process_signal (cfg : Config) (s : Sig) : Except String (ExecTrace OutSignal) :=
  match _prepare_params cfg s with
  | Except.error e => Except.error e
  | Except.ok ps => Except.ok (execute_with_retry s.env ps)

/-- modbus_rtu_block.py `ModbusRTU.__init__`: `self._max_locks = 5`. -/
def max_locks : Nat := 5

/-- Per-event record of what `ModbusRTU.process_signals` did with one
signal: dropped at admission (no transport call), processed normally (with
the number of transport attempts and whether an output was collected), or
aborted the batch by an uncaught exception. -/
inductive EvStatus where
  | dropped
  | processed (attempts : Nat) (emitted : Bool)
  | raised
deriving DecidableEq

/-- Transport attempts recorded for one event status; a dropped event and a
raised event (the exception comes from parameter building, before any
transport call) make none. -/
def EvStatus.attemptCount : EvStatus → Nat
  | EvStatus.dropped => 0
  | EvStatus.processed k _ => k
  | EvStatus.raised => 0

/-- Result of one run of `ModbusRTU.process_signals`: the final value of
`self._num_locks`, the highest value it reached, the local `output` list at
return or raise time, the per-event statuses, and whether an uncaught
exception aborted the batch. -/
structure BatchResult where
  finalLocks : Nat
  peak : Nat
  output : List OutSignal
  statuses : List EvStatus
  aborted : Bool

/-- modbus_rtu_block.py `ModbusRTU.process_signals`, as a function of the
incoming `self._num_locks` value, single-threaded: a signal arriving with
the count at or above `_max_locks` is skipped; otherwise the count is
incremented, `_process_signal` runs under the lock, a truthy output is
collected, and the count is decremented — but an exception from
`_process_signal` propagates immediately, skipping the decrement and the
final `notify_signals`. -/
def process_signals (cfg : Config) : Nat → List Sig → BatchResult
  | n, [] => ⟨n, n, [], [], false⟩
  | n, s :: rest =>
    if n ≥ max_locks then
      let res := process_signals cfg n rest
      ⟨res.finalLocks, Nat.max n res.peak, res.output,
        EvStatus.dropped :: res.statuses, res.aborted⟩
    else
      let n1 := n + 1
      match _process_signal cfg s with
      | Except.error _ => ⟨n1, n1, [], [EvStatus.raised], true⟩
      | Except.ok tr =>
        let res := process_signals cfg (n1 - 1) rest
        ⟨res.finalLocks, Nat.max n1 res.peak,
          (match tr.result with
            | some o => o :: res.output
            | Option.none => res.output),
          EvStatus.processed tr.attempts tr.result.isSome :: res.statuses,
          res.aborted⟩

/-- What `notify_signals` receives from one batch: nothing when the batch
was aborted by an exception or when no outputs were collected. -/
def emitted (res : BatchResult) : List OutSignal :=
  if res.aborted then [] else res.output

/-- Running `process_signals` over successive batches, threading the
persistent `self._num_locks` counter through. -/
def runBatches (cfg : Config) : Nat → List (List Sig) → Nat
  | n, [] => n
  | n, b :: rest => runBatches cfg (process_signals cfg n b).finalLocks rest

/-- Total number of transport attempts recorded for a batch. -/
def totalAttempts (res : BatchResult) : Nat :=
  (res.statuses.map EvStatus.attemptCount).sum

end ModbusRTU

/-! Helper lemmas about the two executors and the serial admission gate. -/

theorem ModbusRTU.execute_with_retry_attempts_pos (env : ExecEnv) (ps : Params) :
    1 ≤ (ModbusRTU.execute_with_retry env ps).attempts := by
  obtain ⟨f, s⟩ := env
  cases f <;> cases s <;>
    simp [ModbusRTU.execute_with_retry, ModbusRTU._execute, ModbusRTU._process_response]

theorem ModbusRTU.process_signals_locks_le (cfg : ModbusRTU.Config)
    (evs : List ModbusRTU.Sig) : ∀ n, n ≤ ModbusRTU.max_locks →
    (ModbusRTU.process_signals cfg n evs).peak ≤ ModbusRTU.max_locks ∧
    (ModbusRTU.process_signals cfg n evs).finalLocks ≤ ModbusRTU.max_locks := by
  induction evs with
  | nil =>
    intro n hn
    exact ⟨hn, hn⟩
  | cons s rest ih =>
    intro n hn
    by_cases h : n ≥ ModbusRTU.max_locks
    · have hrest := ih n hn
      simp only [ModbusRTU.process_signals, if_pos h]
      exact ⟨Nat.max_le.mpr ⟨hn, hrest.1⟩, hrest.2⟩
    · have hlt : n < ModbusRTU.max_locks := Nat.lt_of_not_le h
      have h1 : n + 1 ≤ ModbusRTU.max_locks := hlt
      cases he : ModbusRTU._process_signal cfg s with
      | error e =>
        simp only [ModbusRTU.process_signals, if_neg h, he]
        exact ⟨h1, h1⟩
      | ok tr =>
        have hrest := ih n hn
        simp only [ModbusRTU.process_signals, if_neg h, he, Nat.add_sub_cancel]
        exact ⟨Nat.max_le.mpr ⟨h1, hrest.1⟩, hrest.2⟩

theorem ModbusRTU.process_signals_leak (cfg : ModbusRTU.Config)
    (s : ModbusRTU.Sig) (rest : List ModbusRTU.Sig) (e : String) (n : Nat)
    (herr : ModbusRTU._prepare_params cfg s = Except.error e)
    (hn : n < ModbusRTU.max_locks) :
    ModbusRTU.process_signals cfg n (s :: rest) =
      ⟨n + 1, n + 1, [], [ModbusRTU.EvStatus.raised], true⟩ := by
  have h : ¬(n ≥ ModbusRTU.max_locks) := Nat.not_le.mpr hn
  have hps : ModbusRTU._process_signal cfg s = Except.error e := by
    simp [ModbusRTU._process_signal, herr]
  simp only [ModbusRTU.process_signals, if_neg h, hps]

theorem ModbusRTU.process_signals_at_ceiling (cfg : ModbusRTU.Config)
    (evs : List ModbusRTU.Sig) :
    ModbusRTU.process_signals cfg ModbusRTU.max_locks evs =
      ⟨ModbusRTU.max_locks, ModbusRTU.max_locks, [],
        List.replicate evs.length ModbusRTU.EvStatus.dropped, false⟩ := by
  induction evs with
  | nil => rfl
  | cons s rest ih =>
    simp only [ModbusRTU.process_signals, ge_iff_le, le_refl, if_pos, ih,
      List.length_cons, List.replicate_succ, Nat.max_self]

/-! Concrete instances used by counterexamples and witnesses. -/

def envOkFive : ExecEnv :=
  ⟨TransportOutcome.ok (Value.int 5), TransportOutcome.ok (Value.int 5)⟩

def envIoIo : ExecEnv := ⟨TransportOutcome.ioError, TransportOutcome.ioError⟩

def envIoOk : ExecEnv := ⟨TransportOutcome.ioError, TransportOutcome.ok (Value.int 7)⟩

def envOkNone : ExecEnv := ⟨TransportOutcome.ok Value.none, TransportOutcome.ok Value.none⟩

def tcpGoodSig : Modbus.Sig := ⟨some 1, some (Value.bool true), envOkFive⟩

def tcpBadValueSig : Modbus.Sig := ⟨some 0, Option.none, envOkFive⟩

/-- C1: refuted on the code. In the TCP variant a parameter-building
failure (the value expression raises, so `_prepare_params` returns None)
makes `params['address'] = address` raise TypeError before the None check,
so the exception propagates out of `process_signals` and the remaining
events of the batch are never processed — even though the sibling event
would have succeeded end to end on its own. -/
theorem claim_C1_param_failure_aborts_tcp_batch :
    Modbus.process_signals Modbus.FunctionName.write_single_coil
      [tcpBadValueSig, tcpGoodSig] = Except.error "TypeError"
    ∧ Modbus.processOne Modbus.FunctionName.write_single_coil tcpGoodSig =
      Except.ok (some ⟨Value.int 5,
        [("value", Value.bool true), ("address", Value.int 1)]⟩, 1) :=
  ⟨rfl, rfl⟩

def c5e1 : Modbus.Sig :=
  ⟨some 1, some (Value.bool true),
    ⟨TransportOutcome.ok (Value.int 11), TransportOutcome.ok (Value.int 11)⟩⟩

def c5e2 : Modbus.Sig := ⟨some 2, Option.none, envOkFive⟩

def c5e3 : Modbus.Sig :=
  ⟨some 3, some (Value.bool false),
    ⟨TransportOutcome.ok (Value.int 33), TransportOutcome.ok (Value.int 33)⟩⟩

/-- C5: refuted on the code. For the TCP batch [e1, e2, e3] where e2's
parameters fail to build while e1 and e3 each succeed end to end on their
own (second and third conjuncts), `process_signals` does not emit
[out(e1), out(e3)]: the dict assignment on e2's None params raises
TypeError, the batch aborts and nothing at all is notified. -/
theorem claim_C5_param_failure_breaks_batch_ordering :
    Modbus.process_signals Modbus.FunctionName.write_single_coil
      [c5e1, c5e2, c5e3] = Except.error "TypeError"
    ∧ Modbus.processOne Modbus.FunctionName.write_single_coil c5e1 =
      Except.ok (some ⟨Value.int 11,
        [("value", Value.bool true), ("address", Value.int 1)]⟩, 1)
    ∧ Modbus.processOne Modbus.FunctionName.write_single_coil c5e3 =
      Except.ok (some ⟨Value.int 33,
        [("value", Value.bool false), ("address", Value.int 3)]⟩, 1) :=
  ⟨rfl, rfl, rfl⟩

/-- C3: a transport I/O error on the first attempt triggers exactly one
reconnect and exactly one re-attempt; an I/O error on the retried attempt
produces no output and no further retries; in every run the number of
retries (attempts minus one) equals the number of reconnects (every retry
is preceded by a reconnect) and at most one retry occurs. Holds for the
TCP executor `Modbus._execute` and the RTU retry wrapper
`ModbusRTU.execute_with_retry` (the latter modelled from the spec). -/
theorem claim_C3_retry_policy (env envR : ExecEnv) (ps psR : Params)
    (h1 : env.first = TransportOutcome.ioError)
    (h2 : envR.first = TransportOutcome.ioError) :
    (Modbus._execute env ps).attempts = 2
    ∧ (Modbus._execute env ps).reconnects = 1
    ∧ (env.second = TransportOutcome.ioError →
        (Modbus._execute env ps).result = Option.none)
    ∧ (∀ e q, (Modbus._execute e q).attempts ≤ 2
        ∧ (Modbus._execute e q).reconnects = (Modbus._execute e q).attempts - 1)
    ∧ (ModbusRTU.execute_with_retry envR psR).attempts = 2
    ∧ (ModbusRTU.execute_with_retry envR psR).reconnects = 1
    ∧ (envR.second = TransportOutcome.ioError →
        (ModbusRTU.execute_with_retry envR psR).result = Option.none)
    ∧ (∀ e q, (ModbusRTU.execute_with_retry e q).attempts ≤ 2
        ∧ (ModbusRTU.execute_with_retry e q).reconnects =
          (ModbusRTU.execute_with_retry e q).attempts - 1) := by
  refine ⟨?_, ?_, ?_, ?_, ?_, ?_, ?_, ?_⟩
  · cases h : env.second <;>
      simp [Modbus._execute, Modbus.executeRetried, h1, h]
  · cases h : env.second <;>
      simp [Modbus._execute, Modbus.executeRetried, h1, h]
  · intro h
    simp [Modbus._execute, Modbus.executeRetried, h1, h]
  · intro e q
    cases hf : e.first <;> cases hs : e.second <;>
      simp [Modbus._execute, Modbus.executeRetried, hf, hs]
  · cases h : envR.second <;>
      simp [ModbusRTU.execute_with_retry, ModbusRTU._execute,
        ModbusRTU._process_response, h2, h]
  · cases h : envR.second <;>
      simp [ModbusRTU.execute_with_retry, ModbusRTU._execute,
        ModbusRTU._process_response, h2, h]
  · intro h
    simp [ModbusRTU.execute_with_retry, ModbusRTU._execute,
      ModbusRTU._process_response, h2, h]
  · intro e q
    cases hf : e.first <;> cases hs : e.second <;>
      simp [ModbusRTU.execute_with_retry, ModbusRTU._execute,
        ModbusRTU._process_response, hf, hs]

/-- C3 witness: both hypotheses and the key conclusions hold at a concrete
environment whose two attempts both fail with a transport I/O error. -/
theorem claim_C3_witness :
    envIoIo.first = TransportOutcome.ioError
    ∧ (Modbus._execute envIoIo []).attempts = 2
    ∧ (Modbus._execute envIoIo []).reconnects = 1
    ∧ (Modbus._execute envIoIo []).result = Option.none
    ∧ (ModbusRTU.execute_with_retry envIoIo []).attempts = 2
    ∧ (ModbusRTU.execute_with_retry envIoIo []).result = Option.none := by
  have h := claim_C3_retry_policy envIoIo envIoIo [] [] rfl rfl
  exact ⟨rfl, h.1, h.2.1, h.2.2.1 rfl, h.2.2.2.2.1, h.2.2.2.2.2.2.1 rfl⟩

/-- C7: in the TCP variant, when the first attempt raises a transport I/O
error and the retried attempt succeeds with a truthy result, the retried
call does produce a signal (first conjunct) but line 85 discards its return
value, so the entry call returns nothing and the event yields no
OutputEvent. -/
theorem claim_C7_tcp_retry_result_discarded (env : ExecEnv) (ps : Params)
    (r : Value)
    (h1 : env.first = TransportOutcome.ioError)
    (h2 : env.second = TransportOutcome.ok r)
    (h3 : r.truthy = true) :
    (Modbus.executeRetried env ps).result = some ⟨r, ps⟩
    ∧ (Modbus._execute env ps).result = Option.none := by
  constructor
  · simp [Modbus.executeRetried, h2, h3]
  · simp [Modbus._execute, h1]

/-- C7 witness: concrete environment where the first attempt fails with an
I/O error and the retry returns the truthy response 7. -/
theorem claim_C7_witness :
    envIoOk.first = TransportOutcome.ioError
    ∧ envIoOk.second = TransportOutcome.ok (Value.int 7)
    ∧ (Value.int 7).truthy = true
    ∧ (Modbus.executeRetried envIoOk []).result = some ⟨Value.int 7, []⟩
    ∧ (Modbus._execute envIoOk []).result = Option.none := by
  have h := claim_C7_tcp_retry_result_discarded envIoOk [] (Value.int 7) rfl rfl rfl
  exact ⟨rfl, rfl, rfl, h.1, h.2⟩

def c4TcpSig : Modbus.Sig := ⟨some 0, some (Value.bool true), envOkNone⟩

def c4RtuCfg : ModbusRTU.Config := ⟨ModbusRTU.FunctionName.write_single_coil, 1⟩

def c4RtuSig : ModbusRTU.Sig := ⟨some 0, some (Value.bool true), envOkNone⟩

/-- C4 counterexample: an event whose address and value expressions both
evaluate successfully and whose transport call succeeds (returns normally,
one attempt, no exception) but returns a falsy response (Python None, as a
minimalmodbus write does) produces NO OutputEvent in either variant, so
success of the call alone does not guarantee an output. -/
theorem claim_C4_counterexample :
    Modbus.processOne Modbus.FunctionName.read_coils c4TcpSig =
      Except.ok (Option.none, 1)
    ∧ ModbusRTU._process_signal c4RtuCfg c4RtuSig =
      Except.ok ⟨1, 0, Option.none⟩ :=
  ⟨rfl, rfl⟩

/-- C4 as amended: for every event whose expressions evaluate successfully
and whose transport call succeeds with a TRUTHY (non-empty) response,
exactly one OutputEvent is produced, carrying the response payload and the
CallParameters used for the call — per event and through the batch entry
point, in both variants. -/
theorem claim_C4_truthy_success_output (fn : Modbus.FunctionName)
    (s : Modbus.Sig) (a : Int) (ps : Params) (r : Value)
    (cfg : ModbusRTU.Config) (t : ModbusRTU.Sig) (psR : Params) (rR : Value)
    (ha : s.addressVal = some a)
    (hp : Modbus._prepare_params fn.value s = some ps)
    (hr : s.env.first = TransportOutcome.ok r)
    (htr : r.truthy = true)
    (hpR : ModbusRTU._prepare_params cfg t = Except.ok psR)
    (hrR : t.env.first = TransportOutcome.ok rR)
    (htrR : rR.truthy = true) :
    Modbus.processOne fn s =
      Except.ok (some ⟨r, setKey ps "address" (Value.int a)⟩, 1)
    ∧ Modbus.process_signals fn [s] =
      Except.ok [⟨r, setKey ps "address" (Value.int a)⟩]
    ∧ ModbusRTU._process_signal cfg t = Except.ok ⟨1, 0, some ⟨rR, psR⟩⟩
    ∧ ModbusRTU.emitted (ModbusRTU.process_signals cfg 0 [t]) =
      [⟨rR, psR⟩] := by
  have h1 : Modbus.processOne fn s =
      Except.ok (some ⟨r, setKey ps "address" (Value.int a)⟩, 1) := by
    simp [Modbus.processOne, Modbus._address, ha, hp, Modbus.addrValue,
      Modbus._execute, hr, htr]
  have h3 : ModbusRTU._process_signal cfg t =
      Except.ok ⟨1, 0, some ⟨rR, psR⟩⟩ := by
    simp [ModbusRTU._process_signal, hpR, ModbusRTU.execute_with_retry,
      ModbusRTU._execute, hrR, ModbusRTU._process_response, htrR]
  refine ⟨h1, ?_, h3, ?_⟩
  · simp [Modbus.process_signals, h1]
  · simp [ModbusRTU.process_signals, ModbusRTU.max_locks, h3,
      ModbusRTU.emitted]

def w4sig : Modbus.Sig := ⟨some 0, some (Value.bool true), envOkFive⟩

def w4cfg : ModbusRTU.Config := ⟨ModbusRTU.FunctionName.read_holding_registers, 2⟩

def w4sigR : ModbusRTU.Sig :=
  ⟨some 3, some (Value.bool true),
    ⟨TransportOutcome.ok (Value.int 9), TransportOutcome.ok (Value.int 9)⟩⟩

def w4ps : Params :=
  [("functioncode", Value.int 3), ("registeraddress", Value.int 3),
    ("numberOfRegisters", Value.int 2)]

/-- C4 witness: the amended claim at concrete inputs — a TCP read whose
call returns the truthy response 5, and an RTU register read whose call
returns the truthy response 9. -/
theorem claim_C4_witness :
    w4sig.addressVal = some 0
    ∧ Modbus._prepare_params Modbus.FunctionName.read_coils.value w4sig = some []
    ∧ w4sig.env.first = TransportOutcome.ok (Value.int 5)
    ∧ (Value.int 5).truthy = true
    ∧ ModbusRTU._prepare_params w4cfg w4sigR = Except.ok w4ps
    ∧ w4sigR.env.first = TransportOutcome.ok (Value.int 9)
    ∧ (Value.int 9).truthy = true
    ∧ Modbus.processOne Modbus.FunctionName.read_coils w4sig =
      Except.ok (some ⟨Value.int 5, setKey [] "address" (Value.int 0)⟩, 1)
    ∧ ModbusRTU._process_signal w4cfg w4sigR =
      Except.ok ⟨1, 0, some ⟨Value.int 9, w4ps⟩⟩ := by
  have h := claim_C4_truthy_success_output Modbus.FunctionName.read_coils
    w4sig 0 [] (Value.int 5) w4cfg w4sigR w4ps (Value.int 9)
    rfl rfl rfl rfl rfl rfl rfl
  exact ⟨rfl, rfl, rfl, rfl, rfl, rfl, rfl, h.1, h.2.2.1⟩

theorem ModbusRTU.prepare_params_registeraddress (cfg : ModbusRTU.Config)
    (t : ModbusRTU.Sig) (ps : Params)
    (hps : ModbusRTU._prepare_params cfg t = Except.ok ps) :
    getKey ps "registeraddress" =
      some (Modbus.addrValue (ModbusRTU._address t)) := by
  simp only [ModbusRTU._prepare_params] at hps
  by_cases h34 : cfg.function_name.value = 3 ∨ cfg.function_name.value = 4
  · rw [if_pos h34] at hps
    simp only [Except.ok.injEq] at hps
    subst hps
    simp [setKey, getKey]
  · rw [if_neg h34] at hps
    by_cases h5 : cfg.function_name.value = 5 ∨ cfg.function_name.value = 6
        ∨ cfg.function_name.value = 15 ∨ cfg.function_name.value = 16
    · rw [if_pos h5] at hps
      cases hv : t.valueVal with
      | none =>
        rw [hv] at hps
        exact absurd hps (by simp)
      | some v =>
        rw [hv] at hps
        simp only [Except.ok.injEq] at hps
        subst hps
        simp [setKey, getKey]
    · rw [if_neg h5] at hps
      simp only [Except.ok.injEq] at hps
      subst hps
      simp [setKey, getKey]

def c2cfg : ModbusRTU.Config := ⟨ModbusRTU.FunctionName.read_holding_registers, 4⟩

def c2sig : ModbusRTU.Sig := ⟨Option.none, some (Value.bool true), envOkFive⟩

def c2ps : Params :=
  [("functioncode", Value.int 3), ("registeraddress", Value.none),
    ("numberOfRegisters", Value.int 4)]

/-- C2 counterexample: in the RTU variant, an event whose address
expression fails to yield an integer still has its transport operation
invoked (one attempt, with a None register address in the parameters) and
here even yields an OutputEvent — contradicting the claim that no
transport call is attempted and no output produced in both variants. -/
theorem claim_C2_counterexample :
    c2sig.addressVal = Option.none
    ∧ ModbusRTU._process_signal c2cfg c2sig =
      Except.ok ⟨1, 0, some ⟨Value.int 5, c2ps⟩⟩ :=
  ⟨rfl, rfl⟩

/-- C2 as amended: in the TCP variant an event whose address fails to
resolve causes no transport attempt and no output; in the RTU variant
address failure does not block the call — whenever parameter building
returns, the parameters carry a None register address and the transport
operation is still invoked (at least one attempt). -/
theorem claim_C2_address_failure (fn : Modbus.FunctionName) (s : Modbus.Sig)
    (cfg : ModbusRTU.Config) (t : ModbusRTU.Sig) (ps : Params)
    (hs : s.addressVal = Option.none)
    (ht : t.addressVal = Option.none)
    (hps : ModbusRTU._prepare_params cfg t = Except.ok ps) :
    Modbus.stepAttempts (Modbus.processOne fn s) = 0
    ∧ Modbus.stepOutput (Modbus.processOne fn s) = Option.none
    ∧ getKey ps "registeraddress" = some Value.none
    ∧ ModbusRTU._process_signal cfg t =
      Except.ok (ModbusRTU.execute_with_retry t.env ps)
    ∧ 1 ≤ (ModbusRTU.execute_with_retry t.env ps).attempts := by
  have hra := ModbusRTU.prepare_params_registeraddress cfg t ps hps
  rw [ModbusRTU._address, ht] at hra
  refine ⟨?_, ?_, hra, ?_, ModbusRTU.execute_with_retry_attempts_pos t.env ps⟩
  · cases hp : Modbus._prepare_params fn.value s <;>
      simp [Modbus.processOne, Modbus._address, hs, hp, Modbus.stepAttempts]
  · cases hp : Modbus._prepare_params fn.value s <;>
      simp [Modbus.processOne, Modbus._address, hs, hp, Modbus.stepOutput]
  · simp [ModbusRTU._process_signal, hps]

/-- C2 witness: the amended claim at concrete inputs — a TCP signal and an
RTU signal whose address evaluations both fail, with an RTU register-read
configuration. -/
theorem claim_C2_witness :
    (⟨Option.none, some (Value.bool true), envOkFive⟩ : Modbus.Sig).addressVal
      = Option.none
    ∧ c2sig.addressVal = Option.none
    ∧ ModbusRTU._prepare_params c2cfg c2sig = Except.ok c2ps
    ∧ Modbus.stepAttempts (Modbus.processOne Modbus.FunctionName.read_coils
        ⟨Option.none, some (Value.bool true), envOkFive⟩) = 0
    ∧ getKey c2ps "registeraddress" = some Value.none
    ∧ 1 ≤ (ModbusRTU.execute_with_retry c2sig.env c2ps).attempts := by
  have h := claim_C2_address_failure Modbus.FunctionName.read_coils
    ⟨Option.none, some (Value.bool true), envOkFive⟩ c2cfg c2sig c2ps
    rfl rfl rfl
  exact ⟨rfl, rfl, rfl, h.1, h.2.2.1, h.2.2.2.2⟩

/-- C6: in the serial variant, an event arriving while `_num_locks` is
already at the ceiling is skipped immediately — the batch state is exactly
the state of processing the remaining events (statuses gain a `dropped`
entry contributing zero transport attempts, the collected output and the
count are untouched) — and, starting at or below the ceiling, the waiting
count never exceeds the ceiling anywhere in the single-threaded run. -/
theorem claim_C6_admission_gate (cfg : ModbusRTU.Config) (n : Nat)
    (s : ModbusRTU.Sig) (rest evs : List ModbusRTU.Sig)
    (hceil : n ≥ ModbusRTU.max_locks)
    (hinv : n ≤ ModbusRTU.max_locks) :
    (ModbusRTU.process_signals cfg n (s :: rest)).statuses =
      ModbusRTU.EvStatus.dropped ::
        (ModbusRTU.process_signals cfg n rest).statuses
    ∧ (ModbusRTU.process_signals cfg n (s :: rest)).output =
      (ModbusRTU.process_signals cfg n rest).output
    ∧ (ModbusRTU.process_signals cfg n (s :: rest)).finalLocks =
      (ModbusRTU.process_signals cfg n rest).finalLocks
    ∧ ModbusRTU.totalAttempts (ModbusRTU.process_signals cfg n (s :: rest)) =
      ModbusRTU.totalAttempts (ModbusRTU.process_signals cfg n rest)
    ∧ (ModbusRTU.process_signals cfg n evs).peak ≤ ModbusRTU.max_locks
    ∧ (ModbusRTU.process_signals cfg n evs).finalLocks ≤ ModbusRTU.max_locks := by
  refine ⟨?_, ?_, ?_, ?_,
    (ModbusRTU.process_signals_locks_le cfg evs n hinv).1,
    (ModbusRTU.process_signals_locks_le cfg evs n hinv).2⟩
  · simp only [ModbusRTU.process_signals, if_pos hceil]
  · simp only [ModbusRTU.process_signals, if_pos hceil]
  · simp only [ModbusRTU.process_signals, if_pos hceil]
  · simp only [ModbusRTU.totalAttempts, ModbusRTU.process_signals,
      if_pos hceil, List.map_cons, List.sum_cons,
      ModbusRTU.EvStatus.attemptCount, Nat.zero_add]

def c6cfg : ModbusRTU.Config := ⟨ModbusRTU.FunctionName.read_input_registers, 1⟩

def c6sig : ModbusRTU.Sig := ⟨some 0, some (Value.bool true), envOkFive⟩

/-- C6 witness: with the count at the ceiling of five, a concrete arriving
event is dropped and the peak stays at the ceiling. -/
theorem claim_C6_witness :
    (5 ≥ ModbusRTU.max_locks)
    ∧ (5 ≤ ModbusRTU.max_locks)
    ∧ (ModbusRTU.process_signals c6cfg 5 [c6sig]).statuses =
      ModbusRTU.EvStatus.dropped ::
        (ModbusRTU.process_signals c6cfg 5 []).statuses
    ∧ (ModbusRTU.process_signals c6cfg 5 [c6sig]).peak ≤ ModbusRTU.max_locks := by
  have h := claim_C6_admission_gate c6cfg 5 c6sig [] [c6sig]
    (by decide) (by decide)
  exact ⟨by decide, by decide, h.1, h.2.2.2.2.1⟩

/-- C10: the waiting count is decremented only when processing an admitted
event returns normally. When parameter building raises (so
`_process_signal` raises), the incremented count is never decremented: the
batch aborts with the count one higher and nothing emitted; five such
failures starting from zero leave the persistent count at the ceiling, and
from then on every event of any batch is dropped with no transport call. -/
theorem claim_C10_lock_leak (cfg : ModbusRTU.Config) (s : ModbusRTU.Sig)
    (e : String) (n : Nat) (rest evs : List ModbusRTU.Sig)
    (herr : ModbusRTU._prepare_params cfg s = Except.error e)
    (hn : n < ModbusRTU.max_locks) :
    (ModbusRTU.process_signals cfg n (s :: rest)).finalLocks = n + 1
    ∧ (ModbusRTU.process_signals cfg n (s :: rest)).aborted = true
    ∧ ModbusRTU.emitted (ModbusRTU.process_signals cfg n (s :: rest)) = []
    ∧ ModbusRTU.runBatches cfg 0 [[s], [s], [s], [s], [s]] =
      ModbusRTU.max_locks
    ∧ (ModbusRTU.process_signals cfg ModbusRTU.max_locks evs).statuses =
      List.replicate evs.length ModbusRTU.EvStatus.dropped
    ∧ (ModbusRTU.process_signals cfg ModbusRTU.max_locks evs).finalLocks =
      ModbusRTU.max_locks
    ∧ ModbusRTU.totalAttempts
        (ModbusRTU.process_signals cfg ModbusRTU.max_locks evs) = 0 := by
  have hl : ∀ m r2, m < ModbusRTU.max_locks →
      ModbusRTU.process_signals cfg m (s :: r2) =
        ⟨m + 1, m + 1, [], [ModbusRTU.EvStatus.raised], true⟩ :=
    fun m r2 hm => ModbusRTU.process_signals_leak cfg s r2 e m herr hm
  have hc := ModbusRTU.process_signals_at_ceiling cfg evs
  refine ⟨?_, ?_, ?_, ?_, ?_, ?_, ?_⟩
  · rw [hl n rest hn]
  · rw [hl n rest hn]
  · rw [hl n rest hn]
    rfl
  · have h0 := hl 0 [] (by decide)
    have h1 := hl 1 [] (by decide)
    have h2 := hl 2 [] (by decide)
    have h3 := hl 3 [] (by decide)
    have h4 := hl 4 [] (by decide)
    simp only [ModbusRTU.runBatches, h0, h1, h2, h3, h4]
    rfl
  · rw [hc]
  · rw [hc]
  · rw [hc]
    simp [ModbusRTU.totalAttempts, List.map_replicate,
      ModbusRTU.EvStatus.attemptCount, List.sum_replicate]

def c10cfg : ModbusRTU.Config := ⟨ModbusRTU.FunctionName.write_single_coil, 1⟩

def c10sig : ModbusRTU.Sig := ⟨some 0, Option.none, envOkFive⟩

/-- C10 witness: a concrete event whose value expression raises during
parameter building leaks one slot per failure; five failed batches pin the
count at the ceiling and a later batch of two events is dropped whole. -/
theorem claim_C10_witness :
    ModbusRTU._prepare_params c10cfg c10sig =
      Except.error "Invalid configuration of value property"
    ∧ (0 < ModbusRTU.max_locks)
    ∧ (ModbusRTU.process_signals c10cfg 0 [c10sig]).finalLocks = 1
    ∧ (ModbusRTU.process_signals c10cfg 0 [c10sig]).aborted = true
    ∧ ModbusRTU.runBatches c10cfg 0
        [[c10sig], [c10sig], [c10sig], [c10sig], [c10sig]] =
      ModbusRTU.max_locks
    ∧ (ModbusRTU.process_signals c10cfg ModbusRTU.max_locks
        [c10sig, c10sig]).statuses =
      List.replicate 2 ModbusRTU.EvStatus.dropped := by
  have h := claim_C10_lock_leak c10cfg c10sig
    "Invalid configuration of value property" 0 [] [c10sig, c10sig]
    rfl (by decide)
  exact ⟨rfl, by decide, h.1, h.2.1, h.2.2.2.1, h.2.2.2.2.1⟩

def c8cfg : ModbusRTU.Config :=
  ⟨ModbusRTU.FunctionName.write_multiple_holding_registers, 1⟩

def c8sig : ModbusRTU.Sig :=
  ⟨some 0, some (Value.list [Value.int 1, Value.int 2]), envOkFive⟩

def c8ps : Params :=
  [("functioncode", Value.int 16), ("registeraddress", Value.int 0),
    ("value", Value.list [Value.int 1, Value.int 2])]

/-- C8 counterexample: in the RTU variant, a multiple-write operation
(function code 16, write_multiple_holding_registers) places the evaluated
ordered sequence under the key `value`, and no `values` key exists in the
built CallParameters — contradicting the claim that both variants use
`values`. -/
theorem claim_C8_counterexample :
    ModbusRTU._prepare_params c8cfg c8sig = Except.ok c8ps
    ∧ getKey c8ps "values" = Option.none
    ∧ getKey c8ps "value" = some (Value.list [Value.int 1, Value.int 2]) :=
  ⟨rfl, rfl, rfl⟩

/-- C8 as amended: for multiple-write operations the TCP variant places the
evaluated value expression under `values`, while the RTU variant places it
under `value` (as it does for every write function code). -/
theorem claim_C8_multi_write_params (fn : Modbus.FunctionName)
    (s : Modbus.Sig) (v : Value) (cfg : ModbusRTU.Config)
    (t : ModbusRTU.Sig) (vR : Value) (psR : Params)
    (hfn : fn = Modbus.FunctionName.write_multiple_coils
      ∨ fn = Modbus.FunctionName.write_multiple_holding_registers)
    (hv : s.valueVal = some v)
    (hcfg : cfg.function_name = ModbusRTU.FunctionName.write_multiple_coils
      ∨ cfg.function_name =
        ModbusRTU.FunctionName.write_multiple_holding_registers)
    (hvR : t.valueVal = some vR)
    (hpsR : ModbusRTU._prepare_params cfg t = Except.ok psR) :
    Modbus._prepare_params fn.value s = some [("values", v)]
    ∧ getKey psR "value" = some vR
    ∧ getKey psR "values" = Option.none := by
  refine ⟨?_, ?_, ?_⟩
  · rcases hfn with h | h <;> subst h <;>
      simp [Modbus._prepare_params, Modbus.FunctionName.value, hv]
  · obtain ⟨fnR, cnt⟩ := cfg
    rcases hcfg with h | h <;> subst h <;>
      simp [ModbusRTU._prepare_params, ModbusRTU.FunctionName.value,
        hvR] at hpsR <;>
      subst hpsR <;>
      simp [setKey, getKey]
  · obtain ⟨fnR, cnt⟩ := cfg
    rcases hcfg with h | h <;> subst h <;>
      simp [ModbusRTU._prepare_params, ModbusRTU.FunctionName.value,
        hvR] at hpsR <;>
      subst hpsR <;>
      simp [setKey, getKey]

def w8sig : Modbus.Sig :=
  ⟨some 0, some (Value.list [Value.bool true, Value.bool false]), envOkFive⟩

/-- C8 witness: the amended claim at concrete inputs — a TCP multiple-coil
write and the RTU multiple-register write of the counterexample. -/
theorem claim_C8_witness :
    w8sig.valueVal = some (Value.list [Value.bool true, Value.bool false])
    ∧ c8sig.valueVal = some (Value.list [Value.int 1, Value.int 2])
    ∧ ModbusRTU._prepare_params c8cfg c8sig = Except.ok c8ps
    ∧ Modbus._prepare_params Modbus.FunctionName.write_multiple_coils.value
        w8sig =
      some [("values", Value.list [Value.bool true, Value.bool false])]
    ∧ getKey c8ps "value" = some (Value.list [Value.int 1, Value.int 2])
    ∧ getKey c8ps "values" = Option.none := by
  have h := claim_C8_multi_write_params
    Modbus.FunctionName.write_multiple_coils w8sig
    (Value.list [Value.bool true, Value.bool false]) c8cfg c8sig
    (Value.list [Value.int 1, Value.int 2]) c8ps
    (Or.inl rfl) rfl (Or.inr rfl) rfl rfl
  exact ⟨rfl, rfl, rfl, h.1, h.2.1, h.2.2⟩

def c9cfg : ModbusRTU.Config := ⟨ModbusRTU.FunctionName.read_coils, 4⟩

def c9sig : ModbusRTU.Sig := ⟨some 0, some (Value.bool true), envOkFive⟩

/-- C9 counterexample: for the RTU read_coils operation (function code 1),
the built CallParameters contain no count at all — the configured count of
4 is not included — contradicting the claim that every read operation
includes the configured count. -/
theorem claim_C9_counterexample :
    ModbusRTU._prepare_params c9cfg c9sig =
      Except.ok [("functioncode", Value.int 1), ("registeraddress", Value.int 0)]
    ∧ getKey [("functioncode", Value.int 1), ("registeraddress", Value.int 0)]
        "numberOfRegisters" = Option.none :=
  ⟨rfl, rfl⟩

/-- C9 as amended: in the RTU variant, read operations build no value
parameter; the register reads (read_holding_registers, read_input_registers,
codes 3 and 4) include the statically configured count under
`numberOfRegisters`, while the bit reads (read_coils, read_discrete_inputs,
codes 1 and 2) include no count parameter. -/
theorem claim_C9_read_params (cfg : ModbusRTU.Config) (t : ModbusRTU.Sig)
    (ps : Params)
    (hread : cfg.function_name = ModbusRTU.FunctionName.read_coils
      ∨ cfg.function_name = ModbusRTU.FunctionName.read_discrete_inputs
      ∨ cfg.function_name = ModbusRTU.FunctionName.read_holding_registers
      ∨ cfg.function_name = ModbusRTU.FunctionName.read_input_registers)
    (hps : ModbusRTU._prepare_params cfg t = Except.ok ps) :
    getKey ps "value" = Option.none
    ∧ getKey ps "values" = Option.none
    ∧ ((cfg.function_name = ModbusRTU.FunctionName.read_holding_registers
        ∨ cfg.function_name = ModbusRTU.FunctionName.read_input_registers) →
        getKey ps "numberOfRegisters" = some (Value.int cfg.count))
    ∧ ((cfg.function_name = ModbusRTU.FunctionName.read_coils
        ∨ cfg.function_name = ModbusRTU.FunctionName.read_discrete_inputs) →
        getKey ps "numberOfRegisters" = Option.none) := by
  obtain ⟨fnR, cnt⟩ := cfg
  rcases hread with h | h | h | h <;> subst h <;>
    simp [ModbusRTU._prepare_params, ModbusRTU.FunctionName.value] at hps <;>
    subst hps <;>
    simp [setKey, getKey]

/-- C9 witness: the amended claim at a concrete register read with count 7
and at the bit read of the counterexample. -/
theorem claim_C9_witness :
    ModbusRTU._prepare_params ⟨ModbusRTU.FunctionName.read_input_registers, 7⟩
        c9sig =
      Except.ok [("functioncode", Value.int 4), ("registeraddress", Value.int 0),
        ("numberOfRegisters", Value.int 7)]
    ∧ getKey [("functioncode", Value.int 4), ("registeraddress", Value.int 0),
        ("numberOfRegisters", Value.int 7)] "value" = Option.none
    ∧ getKey [("functioncode", Value.int 4), ("registeraddress", Value.int 0),
        ("numberOfRegisters", Value.int 7)] "numberOfRegisters" =
      some (Value.int 7) := by
  have h := claim_C9_read_params
    ⟨ModbusRTU.FunctionName.read_input_registers, 7⟩ c9sig
    [("functioncode", Value.int 4), ("registeraddress", Value.int 0),
      ("numberOfRegisters", Value.int 7)]
    (Or.inr (Or.inr (Or.inr rfl))) rfl
  exact ⟨rfl, h.1, h.2.2.1 (Or.inr rfl)⟩
